import Mathlib

/-!
Verification of the tribunal frontend (Next.js sources under
`src/frontend` and the unnamed component files).  The definitions below
are shallow embeddings of the TypeScript source: records mirror the
exported interfaces, fixtures mirror `mockData.ts` verbatim, and the
stateful audio-queue logic of the InteractiveTribunal component is
modelled as explicit state passing.  Definitions whose doc comment
starts with `Modelled from the spec:` stand for backend code that is
not part of these sources.
-/

namespace Tribunal

/-- Severity taxonomy: the closed union type used by `api.ts`
(`CriticalIssue.severity`) and by the severity strings of
`mockData.ts` (`FATAL_FLAW` ... `UNKNOWN`). -/
inductive Severity where
  | FATAL_FLAW
  | SERIOUS_CONCERN
  | MINOR_ISSUE
  | ACCEPTABLE
  | UNKNOWN
deriving DecidableEq, Repr

/-- Total order on severities (spec section 3: fatal_flaw > serious_concern >
minor_issue > acceptable > unknown), encoded as a rank. -/
def Severity.rank : Severity → Nat
  | .FATAL_FLAW => 4
  | .SERIOUS_CONCERN => 3
  | .MINOR_ISSUE => 2
  | .ACCEPTABLE => 1
  | .UNKNOWN => 0

/-- Canonical reviewer order (spec section 4.2: Skeptic, Statistician,
Methodologist, Ethicist), indexed by the display names used in
`mockData.ts`. -/
def canonicalRank : String → Nat
  | "The Skeptic" => 0
  | "The Statistician" => 1
  | "The Methodologist" => 2
  | "The Ethicist" => 3
  | _ => 4

/-- One concern of an agent analysis (`api.ts` interface `AgentAnalysis`,
field `concerns`). -/
structure Concern where
  title : String
  evidence : String
  severity : Severity
deriving DecidableEq, Repr

/-- Interface `AgentAnalysis` from `api.ts`. -/
structure AgentAnalysis where
  agent : String
  raw_response : String
  concerns : List Concern
  severity : Severity
  confidence : Nat
deriving DecidableEq, Repr

/-- Interface `CriticalIssue` from `api.ts`. -/
structure CriticalIssue where
  title : String
  agent : String
  severity : Severity
  description : String
deriving DecidableEq, Repr

/-- The nested `verdict` object of interface `Verdict` from `api.ts`. -/
structure VerdictText where
  summary : String
  recommendation : String
deriving DecidableEq, Repr

/-- Interface `Verdict` from `api.ts`. -/
structure Verdict where
  session_id : String
  verdict : VerdictText
  verdict_score : Nat
  critical_issues : List CriticalIssue
  neo_tx_hash : Option String
  aioz_verdict_key : Option String
  aioz_audio_key : Option String
deriving DecidableEq, Repr

/-- The `mockAgents` record of `mockData.ts` (lines 15-103), in its
declaration order.  The TypeScript value is a `Record<string, AgentAnalysis>`;
the association list keeps the source order of the keys. -/
def mockAgents : List (String × AgentAnalysis) :=
  [ ("The Skeptic",
     { agent := "The Skeptic"
       raw_response := "The paper presents interesting findings, but several alternative explanations were not adequately addressed..."
       concerns :=
         [ { title := "Alternative explanations not considered"
             evidence := "The authors did not discuss potential confounding variables"
             severity := .SERIOUS_CONCERN }
         , { title := "Sample size may be insufficient"
             evidence := "Only 30 participants were used in the study"
             severity := .MINOR_ISSUE }
         , { title := "Potential selection bias"
             evidence := "Participants were recruited from a single institution"
             severity := .SERIOUS_CONCERN } ]
       severity := .SERIOUS_CONCERN
       confidence := 78 })
  , ("The Statistician",
     { agent := "The Statistician"
       raw_response := "Statistical analysis reveals several concerns regarding p-hacking and multiple comparisons..."
       concerns :=
         [ { title := "Multiple comparisons not corrected"
             evidence := "20 statistical tests performed without Bonferroni correction"
             severity := .FATAL_FLAW }
         , { title := "Effect size not reported"
             evidence := "Only p-values provided, Cohen's d missing"
             severity := .SERIOUS_CONCERN }
         , { title := "Potential p-hacking detected"
             evidence := "Multiple analysis approaches tried until significance found"
             severity := .FATAL_FLAW } ]
       severity := .FATAL_FLAW
       confidence := 92 })
  , ("The Methodologist",
     { agent := "The Methodologist"
       raw_response := "The experimental design has several methodological weaknesses that could compromise validity..."
       concerns :=
         [ { title := "No control group"
             evidence := "Study lacks proper control condition"
             severity := .FATAL_FLAW }
         , { title := "Blinding not implemented"
             evidence := "Researchers were aware of condition assignments"
             severity := .SERIOUS_CONCERN }
         , { title := "Randomization unclear"
             evidence := "Method of randomization not described"
             severity := .MINOR_ISSUE } ]
       severity := .FATAL_FLAW
       confidence := 85 })
  , ("The Ethicist",
     { agent := "The Ethicist"
       raw_response := "Several ethical concerns and potential conflicts of interest were identified..."
       concerns :=
         [ { title := "Conflict of interest not disclosed"
             evidence := "Authors have financial ties to company producing tested product"
             severity := .SERIOUS_CONCERN }
         , { title := "Informed consent unclear"
             evidence := "Consent process not adequately described"
             severity := .MINOR_ISSUE } ]
       severity := .SERIOUS_CONCERN
       confidence := 70 }) ]

/-- The `mockVerdict` fixture of `mockData.ts` (lines 175-241). -/
def mockVerdict : Verdict :=
  { session_id := "test-session-123"
    verdict :=
      { summary := "The paper presents interesting findings but contains several critical flaws that prevent publication in its current form. Multiple statistical errors, methodological weaknesses, and ethical concerns were identified by the tribunal."
        recommendation := "Major revisions required. The authors must address all fatal flaws, particularly the statistical issues and experimental design problems, before resubmission." }
    verdict_score := 42
    critical_issues :=
      [ { title := "Multiple comparisons not corrected"
          agent := "The Statistician"
          severity := .FATAL_FLAW
          description := "20 statistical tests performed without Bonferroni correction, invalidating reported p-values" }
      , { title := "Potential p-hacking detected"
          agent := "The Statistician"
          severity := .FATAL_FLAW
          description := "Multiple analysis approaches tried until significance found, suggesting data dredging" }
      , { title := "No control group"
          agent := "The Methodologist"
          severity := .FATAL_FLAW
          description := "Study lacks proper control condition, making it impossible to draw causal conclusions" }
      , { title := "Blinding not implemented"
          agent := "The Methodologist"
          severity := .SERIOUS_CONCERN
          description := "Researchers were aware of condition assignments, introducing potential bias" }
      , { title := "Conflict of interest not disclosed"
          agent := "The Ethicist"
          severity := .SERIOUS_CONCERN
          description := "Authors have financial ties to company producing tested product, not disclosed in paper" }
      , { title := "Alternative explanations not considered"
          agent := "The Skeptic"
          severity := .SERIOUS_CONCERN
          description := "Authors did not discuss potential confounding variables or alternative explanations" }
      , { title := "Effect size not reported"
          agent := "The Statistician"
          severity := .SERIOUS_CONCERN
          description := "Only p-values provided, Cohen's d and other effect size measures missing" }
      , { title := "Randomization unclear"
          agent := "The Methodologist"
          severity := .MINOR_ISSUE
          description := "Method of randomization not adequately described in methods section" }
      , { title := "Informed consent unclear"
          agent := "The Ethicist"
          severity := .MINOR_ISSUE
          description := "Consent process not adequately described in ethics section" } ]
    neo_tx_hash := some "0x1234567890abcdef1234567890abcdef12345678"
    aioz_verdict_key := some "verdict/test-session-123.json"
    aioz_audio_key := some "audio/test-session-123.mp3" }

/-- One entry of `audioQueueRef.current` in the InteractiveTribunal
component (part_002 line 121): a base64 audio payload together with the
agent key of its speaker. -/
structure AudioItem where
  audio : String
  agent : String
deriving DecidableEq, Repr

/-- The audio-playback state of one InteractiveTribunal session:
`queue` is `audioQueueRef.current`, `current` is the single
`audioRef.current` element while it is playing (the component keeps one
`<audio>` element, so `current` being an `Option` mirrors the fact that
at most one utterance can be active), and `played` is the log of items
handed to `playAudioBlob`, in order. -/
structure PlayerState where
  queue : List AudioItem
  current : Option AudioItem
  played : List AudioItem
deriving DecidableEq, Repr

/-- Function `playAudioBlob` (part_002 lines 134-175): pauses whatever
`audioRef.current` held, installs the new `Audio` element and starts
it; `onplay` marks the agent as current speaker.  In the state model
this replaces `current` and appends the item to the play log. -/
def playAudioBlob (s : PlayerState) (item : AudioItem) : PlayerState :=
  { s with current := some item, played := s.played ++ [item] }

/-- The `audio.onended` handler installed by `playAudioBlob`
(part_002 lines 150-164): clear the current speaker, then, if the
queue is nonempty, `shift()` the front item and play it. -/
def onEnded (s : PlayerState) : PlayerState :=
  match s.queue with
  | [] => { s with current := none }
  | next :: rest => playAudioBlob { s with queue := rest, current := none } next

/-- Starting a batch (part_002 lines 215-219): set
`audioQueueRef.current` to `validAudio.slice(1)` and play
`validAudio[0]`; an empty batch leaves the state unchanged. -/
def startBatch (s : PlayerState) (items : List AudioItem) : PlayerState :=
  match items with
  | [] => s
  | first :: rest => playAudioBlob { s with queue := rest } first

/-- Fuel-indexed iteration of the `onended` chain until no audio is
playing. -/
def drainFuel : Nat → PlayerState → PlayerState
  | 0, s => s
  | n + 1, s =>
    match s.current with
    | none => s
    | some _ => drainFuel n (onEnded s)

/-- Run the `onended` chain to completion; the queue length plus one is
enough fuel because every `onended` step consumes one queued item or
stops. -/
def drain (s : PlayerState) : PlayerState :=
  drainFuel (s.queue.length + 1) s

/-- The idle state of a fresh session: empty queue, no audio element,
nothing played. -/
def initPlayer : PlayerState := { queue := [], current := none, played := [] }

/-- Number of simultaneously active utterances in a state. -/
def activeCount (s : PlayerState) : Nat := s.current.toList.length

theorem drainFuel_run (q : List AudioItem) :
    ∀ (c : AudioItem) (p : List AudioItem),
      drainFuel (q.length + 1) { queue := q, current := some c, played := p }
        = { queue := [], current := none, played := p ++ q } := by
  induction q with
  | nil =>
    intro c p
    simp [drainFuel, onEnded]
  | cons next rest ih =>
    intro c p
    have hstep : onEnded { queue := next :: rest, current := some c, played := p }
        = { queue := rest, current := some next, played := p ++ [next] } := rfl
    calc drainFuel ((next :: rest).length + 1)
            { queue := next :: rest, current := some c, played := p }
        = drainFuel (rest.length + 1)
            { queue := rest, current := some next, played := p ++ [next] } := by
          simp [drainFuel, hstep]
      _ = { queue := [], current := none, played := (p ++ [next]) ++ rest } := ih next (p ++ [next])
      _ = { queue := [], current := none, played := p ++ (next :: rest) } := by
          simp

theorem drain_startBatch (items : List AudioItem) :
    drain (startBatch initPlayer items)
      = { queue := [], current := none, played := items } := by
  cases items with
  | nil => rfl
  | cons first rest =>
    have : startBatch initPlayer (first :: rest)
        = { queue := rest, current := some first, played := [first] } := rfl
    simp only [drain, this]
    simpa using drainFuel_run rest first [first]

theorem activeCount_le_one (s : PlayerState) : activeCount s ≤ 1 := by
  cases h : s.current <;> simp [activeCount, h]

/-- One opening statement as delivered to the InteractiveTribunal
component (`api.ts` interface `InteractiveSession.opening_statements`). -/
structure OpeningStatement where
  agent : String
  agent_key : String
  severity : Severity
  statement : String
deriving DecidableEq, Repr

/-- A chat message of the component (part_002 interface `Message`,
lines 40-47; the id and timestamp fields are presentation data and
omitted). -/
structure Message where
  mtype : String
  agent : Option String
  agentKey : Option String
  content : String
deriving DecidableEq, Repr

/-- The transcript built by `playOpeningStatements` (part_002 lines
183-199): a system intro message followed by one agent message per
opening statement, in the order of the `openingStatements` array. -/
def openingMessages (sysIntro : String) (stmts : List OpeningStatement) : List Message :=
  { mtype := "system", agent := none, agentKey := none, content := sysIntro }
    :: stmts.map (fun st =>
        { mtype := "agent", agent := some st.agent, agentKey := some st.agent_key
          content := st.statement })

/-- One synthesis task of the opening fan-out (part_002 lines 201-210):
`synthesizeSpeech` then `audioToBase64` on success gives an
`{audio, agent}` record, and the `catch` branch yields `null`.
The abstract `synth` argument stands for the speech backend. -/
def openingAudioTask (synth : OpeningStatement → Option String)
    (st : OpeningStatement) : Option AudioItem :=
  (synth st).map (fun a => { audio := a, agent := st.agent_key })

/-- Line 213 of part_002: `audioResults.filter((a) => a !== null)`. -/
def validAudio (results : List (Option AudioItem)) : List AudioItem :=
  results.filterMap id

/-- Shallow embedding of `Promise.all` over the settled synthesis
tasks: `settled` lists the tasks in completion order, each tagged with
its index in the input array; `Promise.all` reassembles the results in
input-index order, so entry `i` of the output is the result of task
`i` (or `none` if task `i` never settled). -/
def promiseAllResults (n : Nat) (settled : List (Nat × Option AudioItem)) :
    List (Option (Option AudioItem)) :=
  (List.range n).map (fun i => (settled.find? (fun e => e.1 == i)).map Prod.snd)

theorem find?_eq_of_mem_of_nodupKeys {α : Type} (l : List (Nat × α)) (i : Nat) (b : α)
    (hmem : (i, b) ∈ l) (hnd : (l.map Prod.fst).Nodup) :
    l.find? (fun e => e.1 == i) = some (i, b) := by
  induction l with
  | nil => simp at hmem
  | cons hd tl ih =>
    simp only [List.map_cons, List.nodup_cons] at hnd
    rcases List.mem_cons.mp hmem with heq | hmem2
    · subst heq
      simp [List.find?]
    · have hne : hd.1 ≠ i := by
        intro h
        exact hnd.1 (h ▸ List.mem_map.mpr ⟨(i, b), hmem2, rfl⟩)
      have hb : (hd.1 == i) = false := by simpa using hne
      rw [List.find?_cons]
      simp only [hb]
      exact ih hmem2 hnd.2

theorem promiseAllResults_perm (tasks : List (Option AudioItem))
    (settled : List (Nat × Option AudioItem))
    (hperm : settled.Perm ((List.range tasks.length).map (fun i => (i, tasks.getD i none)))) :
    promiseAllResults tasks.length settled = tasks.map some := by
  have hkeys : (settled.map Prod.fst).Perm (List.range tasks.length) := by
    simpa [List.map_map, Function.comp_def] using hperm.map Prod.fst
  have hnd : (settled.map Prod.fst).Nodup :=
    hkeys.nodup_iff.mpr (List.nodup_range _)
  have hfind : ∀ i, i < tasks.length →
      settled.find? (fun e => e.1 == i) = some (i, tasks.getD i none) := by
    intro i hi
    refine find?_eq_of_mem_of_nodupKeys _ _ _ ?_ hnd
    exact hperm.mem_iff.mpr (List.mem_map.mpr ⟨i, List.mem_range.mpr hi, rfl⟩)
  apply List.ext_getElem
  · simp [promiseAllResults]
  · intro i h1 h2
    have hi : i < tasks.length := by
      simpa [promiseAllResults] using h1
    simp only [promiseAllResults, List.getElem_map, List.getElem_range, hfind i hi]
    simp [List.getD_eq_getElem?_getD, List.getElem?_eq_getElem hi]

/-- One agent response from `sendInteractiveMessage`
(`api.ts` interface `AgentResponse`). -/
structure AgentResponse where
  agent : String
  agent_key : String
  response : String
deriving DecidableEq, Repr

/-- The transcript messages appended by `handleSendMessage`
(part_002 lines 366-375): one agent message per entry of
`response.responses`, in array order. -/
def agentMessages (responses : List AgentResponse) : List Message :=
  responses.map (fun r =>
    { mtype := "agent", agent := some r.agent, agentKey := some r.agent_key
      content := r.response })

/-- The synthesis loop of `handleSendMessage` (part_002 lines 377-391)
viewed as the sequence of audio items it produces: the loop walks
`response.responses` in order, synthesizes each response, and drops the
item when synthesis throws (the `catch` branch only logs). -/
def sendMessageQueue (synth : AgentResponse → Option String)
    (responses : List AgentResponse) : List AudioItem :=
  responses.filterMap (fun r =>
    (synth r).map (fun a => { audio := a, agent := r.agent_key }))

theorem filterMap_audio_order {α : Type} (f : α → Option String) (key : α → String)
    (l : List α) :
    (l.filterMap (fun r => (f r).map (fun a => AudioItem.mk a (key r)))).map
        (fun it => it.agent)
      = (l.filter (fun r => (f r).isSome)).map key := by
  induction l with
  | nil => rfl
  | cons hd tl ih =>
    cases h : f hd <;>
      simp [List.filterMap_cons, List.filter_cons, h, ih]

theorem sendMessageQueue_order (synth : AgentResponse → Option String)
    (responses : List AgentResponse) :
    (sendMessageQueue synth responses).map (fun it => it.agent)
      = (responses.filter (fun r => (synth r).isSome)).map (fun r => r.agent_key) :=
  filterMap_audio_order synth (fun r => r.agent_key) responses

/-- C1.  For every session, audio playback is strictly FIFO with at
most one active utterance at any instant: `playAudioBlob` drives a
single `Audio` element (`audioRef`), the `onended` handler dequeues the
next item from the front of `audioQueueRef`, and running the chain to
completion plays the items exactly in the order they were enqueued,
emptying the queue. -/
theorem playback_fifo_single_speaker (items : List AudioItem) :
    (drain (startBatch initPlayer items)).played = items ∧
    (drain (startBatch initPlayer items)).queue = [] ∧
    (drain (startBatch initPlayer items)).current = none ∧
    ∀ n : Nat, activeCount (drainFuel n (startBatch initPlayer items)) ≤ 1 := by
  refine ⟨?_, ?_, ?_, ?_⟩
  · rw [drain_startBatch]
  · rw [drain_startBatch]
  · rw [drain_startBatch]
  · intro n
    exact activeCount_le_one _

/-- C2.  Reviewer utterances of one fan-out are delivered in the order
of the input list, not in completion order: the opening-statement
synthesis runs concurrently via `Promise.all`, but for any completion
order of the settled tasks the gathered results, the transcript
messages and hence the playback queue follow the order of the
`openingStatements` array; responses to a user message are likewise
appended and enqueued in the order of `response.responses`. -/
theorem fanout_canonical_order (stmts : List OpeningStatement)
    (synth : OpeningStatement → Option String)
    (settled : List (Nat × Option AudioItem))
    (hperm : settled.Perm ((List.range stmts.length).map
      (fun i => (i, (stmts.map (openingAudioTask synth)).getD i none))))
    (sysIntro : String)
    (responses : List AgentResponse) (rsynth : AgentResponse → Option String) :
    promiseAllResults stmts.length settled
        = (stmts.map (openingAudioTask synth)).map some ∧
    ((openingMessages sysIntro stmts).drop 1).map (fun m => m.agentKey)
        = stmts.map (fun st => some st.agent_key) ∧
    (sendMessageQueue rsynth responses).map (fun it => it.agent)
        = (responses.filter (fun r => (rsynth r).isSome)).map (fun r => r.agent_key) := by
  refine ⟨?_, ?_, sendMessageQueue_order rsynth responses⟩
  · have h := promiseAllResults_perm (stmts.map (openingAudioTask synth)) settled
      (by simpa using hperm)
    simpa using h
  · simp [openingMessages, List.map_map, Function.comp_def]

/-- Witness for C2: a two-statement batch whose synthesis tasks settle
in reverse order still yields results in statement order. -/
theorem fanout_canonical_order_witness :
    promiseAllResults 2
        [(1, some { audio := "b2", agent := "statistician" }),
         (0, some { audio := "b1", agent := "skeptic" })]
      = ([some { audio := "b1", agent := "skeptic" },
          some { audio := "b2", agent := "statistician" }] : List (Option AudioItem)).map some :=
  (fanout_canonical_order
    [ { agent := "The Skeptic", agent_key := "skeptic"
        severity := .SERIOUS_CONCERN, statement := "b1" }
    , { agent := "The Statistician", agent_key := "statistician"
        severity := .FATAL_FLAW, statement := "b2" } ]
    (fun st => some st.statement)
    [(1, some { audio := "b2", agent := "statistician" }),
     (0, some { audio := "b1", agent := "skeptic" })]
    (by decide) "intro" [] (fun _ => none)).1

/-- C6.  If speech synthesis fails for one item of a batch, that item
is delivered as text only and the rest of the sequence continues
undisturbed: the transcript keeps every statement regardless of the
synthesis outcomes, failed items resolve to `null` and are filtered
out of the audio queue, the surviving items keep their relative order,
and they still play FIFO. -/
theorem synth_failure_text_only (sysIntro : String)
    (stmts : List OpeningStatement) (synth : OpeningStatement → Option String) :
    ((openingMessages sysIntro stmts).drop 1).map (fun m => m.content)
        = stmts.map (fun st => st.statement) ∧
    validAudio (stmts.map (openingAudioTask synth))
        = stmts.filterMap (openingAudioTask synth) ∧
    (stmts.filterMap (openingAudioTask synth)).map (fun it => it.agent)
        = (stmts.filter (fun st => (synth st).isSome)).map (fun st => st.agent_key) ∧
    (drain (startBatch initPlayer
        (validAudio (stmts.map (openingAudioTask synth))))).played
      = validAudio (stmts.map (openingAudioTask synth)) := by
  refine ⟨?_, ?_, ?_, ?_⟩
  · simp [openingMessages, List.map_map, Function.comp_def]
  · simp [validAudio, List.filterMap_map, Function.comp_def]
  · exact filterMap_audio_order synth (fun st => st.agent_key) stmts
  · rw [drain_startBatch]

/-- The InteractiveTribunal component state relevant to interruption:
the transcript (`messages`), the audio queue and single audio element,
the playing flag and current speaker, and the in-flight
`sendInteractiveMessage` request (`pending` holds the responses the
backend will eventually deliver). -/
structure TribunalState where
  messages : List Message
  queue : List AudioItem
  current : Option AudioItem
  isPlaying : Bool
  speaker : Option String
  pending : Option (List AgentResponse)
deriving DecidableEq, Repr

/-- Fresh component state. -/
def initTribunal : TribunalState :=
  { messages := [], queue := [], current := none, isPlaying := false
    speaker := none, pending := none }

/-- Function `handleSendMessage` up to its `await` (part_002 lines 344-364):
append the user message and dispatch `sendInteractiveMessage`; the
`resps` argument records what the backend will eventually answer. -/
def sendDispatch (s : TribunalState) (text : String)
    (resps : List AgentResponse) : TribunalState :=
  { s with
    messages := s.messages ++
      [{ mtype := "human", agent := none, agentKey := none, content := text }]
    pending := some resps }

/-- The interrupt branch of `toggleListening` (part_002 lines 452-459):
pause the current audio element, clear the playing flag and the current
speaker, and clear `audioQueueRef.current`. -/
def interruptPlayback (s : TribunalState) : TribunalState :=
  { s with current := none, isPlaying := false, speaker := none, queue := [] }

/-- The synthesis loop of `handleSendMessage` (part_002 lines 377-391)
over index-tagged responses: index 0 plays directly when nothing is
playing, every other successful synthesis is pushed onto the queue, and
failures are skipped. -/
def synthLoop (synth : AgentResponse → Option String) :
    TribunalState → List (Nat × AgentResponse) → TribunalState
  | s, [] => s
  | s, (i, r) :: rest =>
    match synth r with
    | none => synthLoop synth s rest
    | some a =>
      if i = 0 ∧ s.isPlaying = false then
        synthLoop synth
          { s with current := some { audio := a, agent := r.agent_key }
                   isPlaying := true
                   speaker := some r.agent_key } rest
      else
        synthLoop synth
          { s with queue := s.queue ++ [{ audio := a, agent := r.agent_key }] } rest

/-- Delivery of the awaited `sendInteractiveMessage` response (part_002
lines 366-391): append the agent messages in response order, then run
the synthesis loop.  The handler performs no epoch or cancellation
check of any kind. -/
def deliverPending (synth : AgentResponse → Option String)
    (s : TribunalState) : TribunalState :=
  match s.pending with
  | none => s
  | some resps =>
      synthLoop synth
        { s with messages := s.messages ++ agentMessages resps, pending := none }
        resps.enum

/-- Counterexample to C5.  A request dispatched before an interrupt is
not cancelled by it: with one response in flight, interrupting and then
letting the response arrive still appends the agent message to the
transcript and even starts playing its audio — contradicting the claim
that no Turn or audio from a pre-interrupt epoch is ever appended or
played. -/
theorem interrupt_claim_refuted :
    ((deliverPending (fun r => some r.response)
        (interruptPlayback (sendDispatch initTribunal "question"
          [{ agent := "The Skeptic", agent_key := "skeptic", response := "answer" }]))).messages.any
        (fun m => m.mtype == "agent")) = true ∧
    (deliverPending (fun r => some r.response)
        (interruptPlayback (sendDispatch initTribunal "question"
          [{ agent := "The Skeptic", agent_key := "skeptic", response := "answer" }]))).current
      = some { audio := "answer", agent := "skeptic" } := by
  exact ⟨by decide, by decide⟩

/-- C5 as amended.  An interrupt atomically clears the playback queue,
stops the currently playing audio, clears the current speaker and
leaves the transcript untouched; but work dispatched before the
interrupt is not cancelled: when its response arrives it is still
appended to the transcript and its audio still plays, because the
frontend has no epoch tagging. -/
theorem interrupt_amended (s : TribunalState) :
    (interruptPlayback s).queue = [] ∧
    (interruptPlayback s).current = none ∧
    (interruptPlayback s).speaker = none ∧
    (interruptPlayback s).isPlaying = false ∧
    (interruptPlayback s).messages = s.messages ∧
    (deliverPending (fun r => some r.response)
        (interruptPlayback (sendDispatch initTribunal "question"
          [{ agent := "The Skeptic", agent_key := "skeptic", response := "answer" }]))).messages
      = [ { mtype := "human", agent := none, agentKey := none, content := "question" }
        , { mtype := "agent", agent := some "The Skeptic"
            agentKey := some "skeptic", content := "answer" } ] := by
  refine ⟨rfl, rfl, rfl, rfl, rfl, by decide⟩

/-- Interface `InteractiveSession` from `api.ts` (lines 495-506); the
per-agent analyses record is kept as an association list from agent key
to severity. -/
structure InteractiveSessionData where
  session_id : String
  paper_title : String
  detected_language : String
  analyses : List (String × Severity)
  opening_statements : List OpeningStatement
deriving DecidableEq, Repr

/-- The session-start state of `InteractivePageContent`
(`interactive/page.tsx`): the nullable session and the nullable error
banner. -/
structure PageState where
  session : Option InteractiveSessionData
  error : Option String
deriving DecidableEq, Repr

/-- JavaScript `String.prototype.trim` on the character list: drop
whitespace from both ends. -/
def trimChars (l : List Char) : List Char :=
  ((l.dropWhile Char.isWhitespace).reverse.dropWhile Char.isWhitespace).reverse

/-- JavaScript `text.trim()` as used by `handleStartSession`. -/
def jsTrim (s : String) : String := { data := trimChars s.data }

/-- Function `handleStartSession` (`interactive/page.tsx` lines 325-342): reject
texts whose trimmed length is below 100 characters without calling the
backend; otherwise call `startInteractiveSession` and either install
the session (clearing the error) or surface the thrown message
(leaving the session untouched). -/
def handleStartSession (text : String)
    (backend : Except String InteractiveSessionData) (s : PageState) : PageState :=
  if (jsTrim text).length < 100 then
    { s with error := some "Paper text must be at least 100 characters" }
  else
    match backend with
    | .ok data => { session := some data, error := none }
    | .error e => { s with error := some e }

/-- C9.  Ingestion errors are fatal to session start and are the only
caller-visible failures there: a submission whose trimmed text is
shorter than 100 characters is rejected with an error and no session is
created; a backend error (such as an unsupported-language message) is
surfaced verbatim with no session created; and a successful start
installs the session and clears the error. -/
theorem ingestion_errors_fatal (text : String)
    (backend : Except String InteractiveSessionData) (s : PageState)
    (hs : s.session = none) :
    ((jsTrim text).length < 100 →
      (handleStartSession text backend s).session = none ∧
      (handleStartSession text backend s).error
        = some "Paper text must be at least 100 characters") ∧
    (∀ e, backend = .error e → ¬ (jsTrim text).length < 100 →
      (handleStartSession text backend s).session = none ∧
      (handleStartSession text backend s).error = some e) ∧
    (∀ data, backend = .ok data → ¬ (jsTrim text).length < 100 →
      (handleStartSession text backend s).session = some data ∧
      (handleStartSession text backend s).error = none) := by
  refine ⟨?_, ?_, ?_⟩
  · intro h
    simp [handleStartSession, h, hs]
  · intro e he h
    subst he
    simp [handleStartSession, h, hs]
  · intro data hd h
    subst hd
    simp [handleStartSession, h]

/-- Witness for C9: the concrete submission "too short" is rejected
with the empty-document error and the session stays null. -/
theorem ingestion_errors_fatal_witness :
    (handleStartSession "too short" (Except.error "Language not supported: French")
        { session := none, error := none }).session = none ∧
    (handleStartSession "too short" (Except.error "Language not supported: French")
        { session := none, error := none }).error
      = some "Paper text must be at least 100 characters" :=
  (ingestion_errors_fatal "too short" (Except.error "Language not supported: French")
    { session := none, error := none } rfl).1 (by decide)

/-- Modelled from the spec: the per-tier penalty of the backend
VerdictAggregator (spec section 4.4 step 3) — the aggregator itself is
backend code absent from these sources.  The spec fixes only the
ordering constraint (fatal_flaw > serious_concern > minor_issue >
acceptable = unknown = 0); the concrete values 12 > 4 > 3 satisfy it
and reproduce the reference fixture score of 42 from the fixture issue
list. -/
def severityPenalty : Severity → Nat
  | .FATAL_FLAW => 12
  | .SERIOUS_CONCERN => 4
  | .MINOR_ISSUE => 3
  | .ACCEPTABLE => 0
  | .UNKNOWN => 0

/-- Modelled from the spec: the backend scoring rule (spec section 4.4
step 3): start at 100, subtract the tier penalty per surviving concern,
clamp to [0, 100]. -/
def computeScore (concerns : List Severity) : Nat :=
  (max 0 (min 100
    (100 - (concerns.map (fun s => (severityPenalty s : Int))).sum))).toNat

/-- Counterexample to C3.  The reference verdict fixture
(`mockVerdict`) does have score 42, but its issue list has 9 entries
with severity multiset {3 fatal_flaw, 4 serious_concern, 2 minor_issue}
— not 6 issues with {3 fatal_flaw, 2 serious_concern, 1 minor_issue} as
the claim states. -/
theorem verdict_fixture_counts_refuted :
    mockVerdict.verdict_score = 42 ∧
    mockVerdict.critical_issues.length = 9 ∧
    ¬ mockVerdict.critical_issues.length = 6 ∧
    (mockVerdict.critical_issues.filter (fun i => i.severity = .FATAL_FLAW)).length = 3 ∧
    (mockVerdict.critical_issues.filter (fun i => i.severity = .SERIOUS_CONCERN)).length = 4 ∧
    ¬ (mockVerdict.critical_issues.filter (fun i => i.severity = .SERIOUS_CONCERN)).length = 2 ∧
    (mockVerdict.critical_issues.filter (fun i => i.severity = .MINOR_ISSUE)).length = 2 := by
  decide

/-- C3 as amended.  The score starts at 100, subtracts a fixed
per-concern penalty ordered by severity tier, is clamped to [0, 100]
and equals 100 for zero concerns; the code reference fixture has score
42 out of 100 with 9 issues listed, 3 of them fatal-tier, and the
tiered penalties reproduce the fixture score 42 from the fixture issue
list. -/
theorem scoring_model_amended :
    computeScore [] = 100 ∧
    (∀ cs : List Severity, computeScore cs ≤ 100) ∧
    severityPenalty .FATAL_FLAW > severityPenalty .SERIOUS_CONCERN ∧
    severityPenalty .SERIOUS_CONCERN > severityPenalty .MINOR_ISSUE ∧
    severityPenalty .MINOR_ISSUE > severityPenalty .ACCEPTABLE ∧
    severityPenalty .ACCEPTABLE = 0 ∧
    severityPenalty .UNKNOWN = 0 ∧
    computeScore (mockVerdict.critical_issues.map (fun i => i.severity))
      = mockVerdict.verdict_score ∧
    mockVerdict.verdict_score = 42 ∧
    mockVerdict.critical_issues.length = 9 ∧
    (mockVerdict.critical_issues.filter (fun i => i.severity = .FATAL_FLAW)).length = 3 := by
  refine ⟨by decide, ?_, by decide, by decide, by decide, by decide, by decide,
    by decide, by decide, by decide, by decide⟩
  intro cs
  have h : max 0 (min 100
      (100 - ((cs.map (fun s => (severityPenalty s : Int))).sum))) ≤ (100 : Int) :=
    max_le (by norm_num) (min_le_left _ _)
  exact Int.toNat_le.mpr h

/-- The critical-issue-list property asserted by the claim (spec
section 4.4 step 4), stated as a predicate over a verdict issue list
and the agent analyses so it can be tested against the code fixture:
the list contains exactly the analysis concerns of severity at least
serious_concern, sorted by severity descending and, within a tier, by
canonical reviewer order. -/
def specCriticalIssueProperty (issues : List CriticalIssue)
    (analyses : List (String × AgentAnalysis)) : Prop :=
  (∀ i ∈ issues, Severity.rank .SERIOUS_CONCERN ≤ Severity.rank i.severity) ∧
  (∀ p ∈ analyses, ∀ c ∈ p.2.concerns,
      Severity.rank .SERIOUS_CONCERN ≤ Severity.rank c.severity →
      c.title ∈ issues.map (fun i => i.title)) ∧
  issues.Pairwise (fun a b =>
    Severity.rank b.severity < Severity.rank a.severity ∨
    (a.severity = b.severity ∧ canonicalRank a.agent ≤ canonicalRank b.agent))

instance (issues : List CriticalIssue) (analyses : List (String × AgentAnalysis)) :
    Decidable (specCriticalIssueProperty issues analyses) := by
  unfold specCriticalIssueProperty
  infer_instance

/-- Counterexample to C4.  The verdict fixture violates the claimed
property: its issue list contains two minor_issue entries, omits the
serious concern "Potential selection bias" of the Skeptic analysis, and
its serious_concern tier is ordered Methodologist, Ethicist, Skeptic,
Statistician rather than canonically. -/
theorem critical_issue_claim_refuted :
    ¬ specCriticalIssueProperty mockVerdict.critical_issues mockAgents := by
  decide

/-- C4 as amended.  For the verdict fixture, the critical-issue list is
deduplicated (no repeated titles), every entry corresponds by title and
severity to a concern of the matching agent analysis, and the list is
sorted by severity descending; but it is not restricted to severity at
least serious_concern (it includes 2 minor issues), it omits one
serious concern of the analyses, and within a severity tier the order
does not follow canonical reviewer order. -/
theorem critical_issue_list_amended :
    (mockVerdict.critical_issues.map (fun i => i.title)).Nodup ∧
    mockVerdict.critical_issues.Pairwise
      (fun a b => Severity.rank b.severity ≤ Severity.rank a.severity) ∧
    (∀ i ∈ mockVerdict.critical_issues, ∃ p ∈ mockAgents,
        p.2.agent = i.agent ∧
        ∃ c ∈ p.2.concerns, c.title = i.title ∧ c.severity = i.severity) ∧
    (mockVerdict.critical_issues.filter (fun i => i.severity = .MINOR_ISSUE)).length = 2 ∧
    (∃ p ∈ mockAgents, ∃ c ∈ p.2.concerns,
        c.title = "Potential selection bias" ∧ c.severity = .SERIOUS_CONCERN) ∧
    "Potential selection bias" ∉ mockVerdict.critical_issues.map (fun i => i.title) ∧
    ¬ ((mockVerdict.critical_issues.filter
          (fun i => i.severity = .SERIOUS_CONCERN)).map (fun i => i.agent)).Pairwise
        (fun a b => canonicalRank a ≤ canonicalRank b) := by
  refine ⟨by decide, by decide, by decide, by decide, by decide, by decide, by decide⟩

/-- The nested verdict details of interface `InteractiveVerdict`
(`api.ts` lines 520-528). -/
structure InteractiveVerdictDetails where
  decision : Option String
  summary : Option String
  score : Option Nat
  severities : List String
  total_concerns : Option Nat
  critical_concerns : Option Nat
  debate_rounds : Option Nat
deriving DecidableEq, Repr

/-- One entry of the `critical_issues` field of interface
`InteractiveVerdict` (`api.ts` lines 530-534): a plain string or a
title record. -/
inductive IssueEntry where
  | plain (title : String)
  | detailed (title : String) (severity : Severity) (evidence : Option String)
deriving DecidableEq, Repr

/-- Interface `InteractiveVerdict` from `api.ts` (lines 519-537).  The
optional `mem0_stored` flag is kept as a `Bool` because the component
only tests its truthiness (part_002 line 750). -/
structure InteractiveVerdict where
  verdict : InteractiveVerdictDetails
  score : Nat
  critical_issues : List IssueEntry
  neo_tx_hash : Option String
  mem0_stored : Bool
deriving DecidableEq, Repr

/-- Modelled from the spec: the verdict slot of a backend session
(spec section 3, Lifecycle: Verdict and CommitRecord are created once,
on the first verdict request, and never mutated afterward; a second
verdict request returns the stored Verdict unchanged).  The backend
SessionStore behind `requestInteractiveVerdict` is not part of these
sources. -/
structure VerdictStore where
  stored : Option InteractiveVerdict
deriving DecidableEq, Repr

/-- Modelled from the spec: RequestVerdict against the session store —
the first request computes and stores the verdict, any later request
returns the stored verdict unchanged. -/
def requestVerdictOp (compute : Unit → InteractiveVerdict)
    (s : VerdictStore) : InteractiveVerdict × VerdictStore :=
  match s.stored with
  | some v => (v, s)
  | none =>
    let v := compute ()
    (v, { stored := some v })

/-- The mutable state of `mockApi.ts`: the browser `sessionStorage`,
read and written only by `getTribunalStatus`. -/
structure MockApiState where
  sessionStorage : List (String × String)
deriving DecidableEq, Repr

/-- Function `getVerdict` of `mockApi.ts` (lines 63-69): return the fixture
verdict with the requested session id substituted; no state is read or
written. -/
def mockApiGetVerdict (sessionId : String) (st : MockApiState) :
    Verdict × MockApiState :=
  ({ mockVerdict with session_id := sessionId }, st)

/-- C7.  Requesting the verdict twice for the same session is
idempotent: against the spec-modelled session store the second request
returns the stored verdict unchanged, identical to the first; and the
verdict-fetch operation of the mock API is deterministic and
state-independent, so two calls for the same session id yield the same
Verdict value. -/
theorem verdict_request_idempotent (compute : Unit → InteractiveVerdict)
    (s0 : VerdictStore) (sessionId : String) (st : MockApiState) :
    (requestVerdictOp compute (requestVerdictOp compute s0).2).1
        = (requestVerdictOp compute s0).1 ∧
    (mockApiGetVerdict sessionId (mockApiGetVerdict sessionId st).2).1
        = (mockApiGetVerdict sessionId st).1 := by
  constructor
  · cases h : s0.stored <;> simp [requestVerdictOp, h]
  · rfl

/-- Modelled from the spec: one sink of the CommitPipeline succeeds
when any of its first `cap` attempts succeeds (spec section 4.5:
bounded retry up to a fixed attempt cap). -/
def sinkSucceeds (attempts : List Bool) (cap : Nat) : Bool :=
  (attempts.take cap).any (fun b => b)

/-- Result of dispatching the commit pipeline for a session. -/
structure CommitOutcome where
  verdict : InteractiveVerdict
  status : String
deriving DecidableEq, Repr

/-- Modelled from the spec: the CommitPipeline (spec section 4.5) —
backend code absent from these sources.  The verdict content is already
final; the ledger and memory sinks are attempted independently with a
bounded retry cap; a failed ledger leaves `neo_tx_hash` null and a
failed memory sink leaves `mem0_stored` false; the session is
`concluded` regardless, and the caller always receives the verdict. -/
def runCommit (details : InteractiveVerdictDetails) (score : Nat)
    (issues : List IssueEntry) (txHash : String)
    (ledgerAttempts memoryAttempts : List Bool) (cap : Nat) : CommitOutcome :=
  { verdict :=
      { verdict := details
        score := score
        critical_issues := issues
        neo_tx_hash := if sinkSucceeds ledgerAttempts cap then some txHash else none
        mem0_stored := sinkSucceeds memoryAttempts cap }
    status := "concluded" }

/-- The Neo indicator of the verdict panel (part_002 lines 762-774): a
committed hash renders its first ten characters, a null hash renders
the pending label. -/
def renderNeoIndicator (v : InteractiveVerdict) : String :=
  match v.neo_tx_hash with
  | some h => "Neo: " ++ h.take 10 ++ "..."
  | none => "neoPending"

/-- The Mem0 indicator of the verdict panel (part_002 lines 749-761):
it depends only on `mem0_stored`. -/
def renderMem0Indicator (v : InteractiveVerdict) : String :=
  if v.mem0_stored then "mem0Stored" else "Mem0"

/-- Part_002 line 677: the final verdict panel is rendered exactly when
the verdict state is non-null, irrespective of the commit fields. -/
def verdictPanelShown (verdict : Option InteractiveVerdict) : Bool :=
  verdict.isSome

/-- C8.  Total failure of the ledger sink never blocks or fails the
verdict: the caller still receives the final verdict with
`neo_tx_hash` null and the session concluded, the component renders
that verdict as final (panel shown, Neo indicator pending), and the
memory-sink outcome is independent of the ledger outcome and vice
versa. -/
theorem ledger_failure_nonblocking (details : InteractiveVerdictDetails)
    (score : Nat) (issues : List IssueEntry) (txHash : String)
    (ledgerAttempts memoryAttempts otherLedger otherMemory : List Bool) (cap : Nat)
    (hfail : ∀ b ∈ ledgerAttempts, b = false) :
    (runCommit details score issues txHash ledgerAttempts memoryAttempts cap).verdict.neo_tx_hash
        = none ∧
    (runCommit details score issues txHash ledgerAttempts memoryAttempts cap).status
        = "concluded" ∧
    (runCommit details score issues txHash ledgerAttempts memoryAttempts cap).verdict.score
        = score ∧
    renderNeoIndicator
        (runCommit details score issues txHash ledgerAttempts memoryAttempts cap).verdict
      = "neoPending" ∧
    verdictPanelShown
        (some (runCommit details score issues txHash ledgerAttempts memoryAttempts cap).verdict)
      = true ∧
    (runCommit details score issues txHash otherLedger memoryAttempts cap).verdict.mem0_stored
      = (runCommit details score issues txHash ledgerAttempts memoryAttempts cap).verdict.mem0_stored ∧
    (runCommit details score issues txHash ledgerAttempts otherMemory cap).verdict.neo_tx_hash
      = (runCommit details score issues txHash ledgerAttempts memoryAttempts cap).verdict.neo_tx_hash := by
  have hl : sinkSucceeds ledgerAttempts cap = false := by
    unfold sinkSucceeds
    rw [List.any_eq_false]
    intro b hb
    simp [hfail b (List.mem_of_mem_take hb)]
  refine ⟨?_, rfl, rfl, ?_, rfl, rfl, ?_⟩
  · simp [runCommit, hl]
  · simp [runCommit, hl, renderNeoIndicator]
  · simp [runCommit]

/-- Witness for C8: with three failed ledger attempts and a successful
memory store, the caller still gets the concluded verdict with a null
transaction hash. -/
theorem ledger_failure_nonblocking_witness :
    (runCommit { decision := none, summary := none, score := none, severities := []
                 total_concerns := none, critical_concerns := none, debate_rounds := none }
        42 [] "0xabc" [false, false, false] [true] 3).verdict.neo_tx_hash = none ∧
    (runCommit { decision := none, summary := none, score := none, severities := []
                 total_concerns := none, critical_concerns := none, debate_rounds := none }
        42 [] "0xabc" [false, false, false] [true] 3).status = "concluded" :=
  ⟨(ledger_failure_nonblocking
      { decision := none, summary := none, score := none, severities := []
        total_concerns := none, critical_concerns := none, debate_rounds := none }
      42 [] "0xabc" [false, false, false] [true] [] [] 3 (by decide)).1,
   (ledger_failure_nonblocking
      { decision := none, summary := none, score := none, severities := []
        total_concerns := none, critical_concerns := none, debate_rounds := none }
      42 [] "0xabc" [false, false, false] [true] [] [] 3 (by decide)).2.1⟩

/-- The standard base64 alphabet used by the browser
`FileReader.readAsDataURL` / `atob` pair that `audioToBase64` and
`base64ToAudioBlob` rely on. -/
def base64Alphabet : List Char :=
  "ABCDEFGHIJKLMNOPQRSTUVWXYZabcdefghijklmnopqrstuvwxyz0123456789+/".data

/-- Character of one six-bit group. -/
def sextetChar (n : Nat) : Char := base64Alphabet.getD n 'A'

/-- Inverse character lookup used by `atob`; padding and foreign
characters have no sextet. -/
def charToSextet (c : Char) : Option Nat := base64Alphabet.indexOf? c

/-- Base64 encoding of a byte sequence into six-bit groups, processing
three bytes into four sextets per step. -/
def bytesToSextets : List Nat → List Nat
  | b0 :: b1 :: b2 :: rest =>
      b0 / 4 :: ((b0 % 4) * 16 + b1 / 16) :: ((b1 % 16) * 4 + b2 / 64) :: (b2 % 64)
        :: bytesToSextets rest
  | [b0, b1] => [b0 / 4, (b0 % 4) * 16 + b1 / 16, (b1 % 16) * 4]
  | [b0] => [b0 / 4, (b0 % 4) * 16]
  | [] => []

/-- Base64 padding: one trailing byte takes two `=`, two trailing bytes
take one. -/
def base64Pad : List Nat → List Char
  | _ :: _ :: _ :: rest => base64Pad rest
  | [_, _] => ['=']
  | [_] => ['=', '=']
  | [] => []

/-- Base64 encoding as produced by `readAsDataURL` after the comma. -/
def encodeBase64 (bytes : List Nat) : List Char :=
  (bytesToSextets bytes).map sextetChar ++ base64Pad bytes

/-- Base64 decoding of four sextets into three bytes, with the partial
final group of a padded encoding. -/
def sextetsToBytes : List Nat → List Nat
  | c0 :: c1 :: c2 :: c3 :: rest =>
      (c0 * 4 + c1 / 16) :: ((c1 % 16) * 16 + c2 / 4) :: ((c2 % 4) * 64 + c3)
        :: sextetsToBytes rest
  | [c0, c1, c2] => [c0 * 4 + c1 / 16, (c1 % 16) * 16 + c2 / 4]
  | [c0, c1] => [c0 * 4 + c1 / 16]
  | [_] => []
  | [] => []

/-- The byte string produced by `atob` (as read back by `charCodeAt`
in `base64ToAudioBlob`): padding characters carry no sextet and the
remaining sextets are packed back into bytes. -/
def atobBytes (s : List Char) : List Nat :=
  sextetsToBytes (s.filterMap charToSextet)

/-- A browser `Blob`: a mime type and its byte content. -/
structure MockBlob where
  mime : String
  bytes : List Nat
deriving DecidableEq, Repr

/-- The data URL produced by `FileReader.readAsDataURL` for a blob:
the mime header up to the comma, then the base64 payload. -/
def dataUrl (b : MockBlob) : List Char :=
  ("data:" ++ b.mime ++ ";base64,").data ++ encodeBase64 b.bytes

/-- JavaScript `String.prototype.split(",")` on a character list. -/
def splitComma : List Char → List (List Char)
  | [] => [[]]
  | c :: rest =>
    if c = ',' then [] :: splitComma rest
    else
      match splitComma rest with
      | [] => [[c]]
      | seg :: segs => (c :: seg) :: segs

/-- Function `audioToBase64` of `api.ts` (lines 302-314): read the blob as a
data URL and keep what follows the first comma
(`base64.split(",")[1]`). -/
def audioToBase64 (b : MockBlob) : List Char :=
  (splitComma (dataUrl b)).getD 1 []

/-- Function `base64ToAudioBlob` of `api.ts` (lines 317-324): decode the base64
string, turn the character codes into bytes and wrap them in a blob of
the given mime type (the source defaults it to `audio/mpeg`). -/
def base64ToAudioBlob (s : List Char) (mimeType : String) : MockBlob :=
  { mime := mimeType, bytes := atobBytes s }

theorem sextets_bytes_round (bs : List Nat) (h : ∀ x ∈ bs, x < 256) :
    sextetsToBytes (bytesToSextets bs) = bs := by
  induction bs using bytesToSextets.induct with
  | case1 b0 b1 b2 rest ih =>
    have h0 : b0 < 256 := h b0 (by simp)
    have h1 : b1 < 256 := h b1 (by simp)
    have h2 : b2 < 256 := h b2 (by simp)
    have hrest := ih (fun x hx => h x (by simp [hx]))
    simp only [bytesToSextets, sextetsToBytes, hrest, List.cons.injEq, and_true]
    refine ⟨by omega, by omega, by omega⟩
  | case2 b0 b1 =>
    have h0 : b0 < 256 := h b0 (by simp)
    have h1 : b1 < 256 := h b1 (by simp)
    simp only [bytesToSextets, sextetsToBytes, List.cons.injEq, and_true]
    refine ⟨by omega, by omega⟩
  | case3 b0 =>
    have h0 : b0 < 256 := h b0 (by simp)
    simp only [bytesToSextets, sextetsToBytes, List.cons.injEq, and_true]
    omega
  | case4 => rfl

theorem bytesToSextets_lt (bs : List Nat) (h : ∀ x ∈ bs, x < 256) :
    ∀ s ∈ bytesToSextets bs, s < 64 := by
  induction bs using bytesToSextets.induct with
  | case1 b0 b1 b2 rest ih =>
    have h0 : b0 < 256 := h b0 (by simp)
    have h1 : b1 < 256 := h b1 (by simp)
    have h2 : b2 < 256 := h b2 (by simp)
    have hrest := ih (fun x hx => h x (by simp [hx]))
    intro s hs
    simp only [bytesToSextets, List.mem_cons] at hs
    rcases hs with rfl | rfl | rfl | rfl | hs
    · omega
    · omega
    · omega
    · omega
    · exact hrest s hs
  | case2 b0 b1 =>
    have h0 : b0 < 256 := h b0 (by simp)
    have h1 : b1 < 256 := h b1 (by simp)
    intro s hs
    simp only [bytesToSextets, List.mem_cons] at hs
    rcases hs with rfl | rfl | rfl | hs
    · omega
    · omega
    · omega
    · simp at hs
  | case3 b0 =>
    have h0 : b0 < 256 := h b0 (by simp)
    intro s hs
    simp only [bytesToSextets, List.mem_cons] at hs
    rcases hs with rfl | rfl | hs
    · omega
    · omega
    · simp at hs
  | case4 =>
    intro s hs
    simp [bytesToSextets] at hs

theorem base64Pad_mem (bs : List Nat) : ∀ c ∈ base64Pad bs, c = '=' := by
  induction bs using base64Pad.induct with
  | case1 a b c rest ih =>
    intro x hx
    exact ih x hx
  | case2 a b =>
    intro x hx
    simpa [base64Pad] using hx
  | case3 a =>
    intro x hx
    rcases (by simpa [base64Pad] using hx : x = '=' ∨ x = '=') with rfl | rfl <;> rfl
  | case4 =>
    intro x hx
    simp [base64Pad] at hx

theorem sextetChar_ne_comma (n : Nat) : sextetChar n ≠ ',' := by
  rcases Nat.lt_or_ge n 64 with h | h
  · exact (by decide : ∀ m < 64, sextetChar m ≠ ',') n h
  · have hle : base64Alphabet.length ≤ n := by
      have hlen : base64Alphabet.length = 64 := by decide
      omega
    unfold sextetChar
    rw [List.getD_eq_default _ _ hle]
    decide

theorem encodeBase64_ne_comma (bs : List Nat) : ∀ c ∈ encodeBase64 bs, c ≠ ',' := by
  intro c hc
  unfold encodeBase64 at hc
  rcases List.mem_append.mp hc with h | h
  · rcases List.mem_map.mp h with ⟨s, _, rfl⟩
    exact sextetChar_ne_comma s
  · rw [base64Pad_mem bs c h]
    decide

theorem filterMap_eq_self_of_some {α : Type} (f : α → Option α) (l : List α)
    (h : ∀ a ∈ l, f a = some a) : l.filterMap f = l := by
  induction l with
  | nil => rfl
  | cons hd tl ih =>
    rw [List.filterMap_cons, h hd (by simp)]
    rw [ih (fun a ha => h a (by simp [ha]))]

theorem splitComma_no_comma (l : List Char) (h : ∀ c ∈ l, c ≠ ',') :
    splitComma l = [l] := by
  induction l with
  | nil => rfl
  | cons c rest ih =>
    have hc : c ≠ ',' := h c (by simp)
    have hr := ih (fun x hx => h x (by simp [hx]))
    simp [splitComma, hc, hr]

theorem splitComma_append (l1 l2 : List Char) (h : ∀ c ∈ l1, c ≠ ',') :
    splitComma (l1 ++ ',' :: l2) = l1 :: splitComma l2 := by
  induction l1 with
  | nil => simp [splitComma]
  | cons c t ih =>
    have hc : c ≠ ',' := h c (by simp)
    have ht := ih (fun x hx => h x (by simp [hx]))
    simp only [List.cons_append, splitComma, if_neg hc]
    rw [show t.append (',' :: l2) = t ++ ',' :: l2 from rfl, ht]

theorem atob_encode (bs : List Nat) (h : ∀ x ∈ bs, x < 256) :
    atobBytes (encodeBase64 bs) = bs := by
  have hsx := bytesToSextets_lt bs h
  unfold atobBytes encodeBase64
  rw [List.filterMap_append]
  have hpad : (base64Pad bs).filterMap charToSextet = [] := by
    rw [List.filterMap_eq_nil_iff]
    intro c hc
    rw [base64Pad_mem bs c hc]
    decide
  have hmap : ((bytesToSextets bs).map sextetChar).filterMap charToSextet
      = bytesToSextets bs := by
    rw [List.filterMap_map]
    refine filterMap_eq_self_of_some _ _ ?_
    intro a ha
    exact (by decide : ∀ m < 64, charToSextet (sextetChar m) = some m) a (hsx a ha)
  rw [hpad, hmap, List.append_nil]
  exact sextets_bytes_round bs h

/-- C10.  Encoding an audio blob to base64 and decoding it back is a
byte-level round-trip: for every blob (whose mime type contains no
comma, as for every audio mime type the app uses), `base64ToAudioBlob`
applied to the output of `audioToBase64` yields a blob with exactly the
same byte content — `audioToBase64` strips the data-URL part before
the comma and `base64ToAudioBlob` decodes the base64 payload back into
the identical byte array. -/
theorem base64_roundtrip (b : MockBlob) (hbytes : ∀ x ∈ b.bytes, x < 256)
    (hmime : ∀ c ∈ b.mime.data, c ≠ ',') :
    (base64ToAudioBlob (audioToBase64 b) "audio/mpeg").bytes = b.bytes := by
  have hhead : ∀ c ∈ ("data:".data ++ b.mime.data ++ ";base64".data), c ≠ ',' := by
    intro c hc
    rcases List.mem_append.mp hc with hc1 | hc2
    · rcases List.mem_append.mp hc1 with h | h
      · exact (by decide : ∀ c ∈ "data:".data, c ≠ ',') c h
      · exact hmime c h
    · exact (by decide : ∀ c ∈ ";base64".data, c ≠ ',') c hc2
  have hurl : dataUrl b
      = ("data:".data ++ b.mime.data ++ ";base64".data) ++ ',' :: encodeBase64 b.bytes := by
    unfold dataUrl
    rw [String.data_append, String.data_append]
    rw [show (";base64,".data : List Char) = ";base64".data ++ [','] from by decide]
    simp [List.append_assoc]
  show atobBytes ((splitComma (dataUrl b)).getD 1 []) = b.bytes
  rw [hurl, splitComma_append _ _ hhead,
      splitComma_no_comma _ (encodeBase64_ne_comma b.bytes)]
  simp only [List.getD_cons_succ, List.getD_cons_zero]
  exact atob_encode b.bytes hbytes

/-- Witness for C10: a concrete three-byte audio blob survives the
round-trip. -/
theorem base64_roundtrip_witness :
    (base64ToAudioBlob
        (audioToBase64 { mime := "audio/webm", bytes := [72, 101, 108] })
        "audio/mpeg").bytes = [72, 101, 108] :=
  base64_roundtrip { mime := "audio/webm", bytes := [72, 101, 108] }
    (by decide) (by decide)

end Tribunal
